import Mathlib

/-!
Verification of the MDS-Agency event/telemetry validation and submission
pipeline (mds-core). The definitions below are a shallow embedding of the
TypeScript sources: `badTelemetry`, `badEvent`, `lower`,
`computeCompositeVehicleData` (agency utils) and `submitVehicleEvent`
(agency request handlers). JavaScript runtime values are modelled by
`JsVal` (with NaN and the infinities as explicit number states, and with
JavaScript truthiness and `typeof` semantics); code that can throw is
modelled in `Except Unit`.

External collaborators that are not part of the provided sources
(the mds-utils primitive validators, the mds-types vocabulary tables and
the database contract) are modelled from the specification; each such
definition carries a doc comment saying so.
-/

/-- A JavaScript number: NaN, the two infinities, or a finite value
(modelled as a rational). -/
inductive JsNum where
  | nan : JsNum
  | posInf : JsNum
  | negInf : JsNum
  | fin : Rat → JsNum
deriving DecidableEq

/-- A JavaScript primitive value as it can appear in a request payload. -/
inductive JsVal where
  | undef : JsVal
  | null : JsVal
  | num : JsNum → JsVal
  | str : String → JsVal
  | bool : Bool → JsVal
deriving DecidableEq

/-- JavaScript `<` on numbers: any comparison involving NaN is false. -/
def JsNum.lt : JsNum → JsNum → Bool
  | .nan, _ => false
  | _, .nan => false
  | .negInf, .negInf => false
  | .negInf, _ => true
  | _, .negInf => false
  | .posInf, _ => false
  | _, .posInf => true
  | .fin a, .fin b => decide (a < b)

/-- JavaScript `=== 0` on a number. -/
def JsNum.isZero : JsNum → Bool
  | .fin q => q == 0
  | _ => false

/-- `Number.isInteger`. -/
def JsVal.isInteger : JsVal → Bool
  | .num (.fin q) => q.den == 1
  | _ => false

/-- JavaScript truthiness for the primitive values we model. -/
def JsVal.truthy : JsVal → Bool
  | .undef => false
  | .null => false
  | .num .nan => false
  | .num n => !n.isZero
  | .str s => !(s == "")
  | .bool b => b

/-- String rendering of a number, used for interpolated error messages. -/
def JsNum.render : JsNum → String
  | .nan => "NaN"
  | .posInf => "Infinity"
  | .negInf => "-Infinity"
  | .fin q => if q.den == 1 then toString q.num else toString q

/-- String rendering of a value, used for interpolated error messages. -/
def JsVal.render : JsVal → String
  | .undef => "undefined"
  | .null => "null"
  | .num n => n.render
  | .str s => s
  | .bool b => if b then "true" else "false"

/-- The `{error, error_description}` payload returned by the validators. -/
structure ErrorObject where
  error : String
  error_description : String
deriving DecidableEq

/-- The primitive validators imported from mds-utils (`isUUID`, `isPct`,
`isTimestamp`, `isFloat`). Their sources are outside the provided corpus,
so they are kept abstract: the theorems below hold for every choice. -/
structure Prims where
  isUUID : JsVal → Bool
  isPct : JsVal → Bool
  isTimestamp : JsVal → Bool
  isFloat : JsVal → Bool

/-- Hex digit check used by the concrete UUID model. -/
def isHexDigit (c : Char) : Bool :=
  c.isDigit || (decide ('a' ≤ c) && decide (c ≤ 'f'))

/-- Modelled from the spec: a UUID is a 36-character string in the usual
8-4-4-4-12 hyphenated hex layout. -/
def isUuidStr (s : String) : Bool :=
  s.data.length == 36 &&
    (s.data.enum.all fun p =>
      if p.1 == 8 || p.1 == 13 || p.1 == 18 || p.1 == 23 then p.2 == '-'
      else isHexDigit p.2)

/-- Modelled from the spec: a concrete instantiation of the mds-utils
primitive validators (UUID check, percentage in [0,1], integral
millisecond-epoch timestamp, finite float), whose sources are outside the
provided corpus. Used only to instantiate the abstract `Prims` in
witnesses and counterexamples. -/
def prims0 : Prims :=
  { isUUID := fun v => match v with
      | .str s => isUuidStr s
      | _ => false
    isPct := fun v => match v with
      | .num (.fin q) => decide (0 ≤ q) && decide (q ≤ 1)
      | _ => false
    isTimestamp := fun v => match v with
      | .num (.fin q) => q.den == 1 && decide ((1420099200000 : Rat) ≤ q)
      | _ => false
    isFloat := fun v => match v with
      | .num (.fin _) => true
      | _ => false }

/-- The fields of a `gps` object. -/
structure GpsObj where
  lat : JsVal
  lng : JsVal
  altitude : JsVal
  accuracy : JsVal
  speed : JsVal
  satellites : JsVal
  heading : JsVal
deriving DecidableEq

/-- The runtime value sitting in a telemetry's `gps` slot: an actual
object, `null`, `undefined`, or some other primitive. -/
inductive GpsVal where
  | undef : GpsVal
  | null : GpsVal
  | obj : GpsObj → GpsVal
  | prim : JsVal → GpsVal
deriving DecidableEq

/-- JavaScript `typeof` applied to a `gps` slot is `'object'`. Note that
`typeof null` is `'object'`. -/
def GpsVal.typeofIsObject : GpsVal → Bool
  | .null => true
  | .obj _ => true
  | _ => false

/-- Truthiness of a `gps` slot. -/
def GpsVal.truthy : GpsVal → Bool
  | .undef => false
  | .null => false
  | .obj _ => true
  | .prim v => v.truthy

/-- A telemetry record as received at runtime. -/
structure Telemetry where
  device_id : JsVal
  timestamp : JsVal
  charge : JsVal
  gps : GpsVal
deriving DecidableEq

/- Shared atomic checks of `badTelemetry`, named so that the code-side
function and the spec-side check list provably agree on each condition. -/

/-- The lat test of `badTelemetry`: not a number, NaN, below -90, above 90,
or exactly 0. -/
def latBad (v : JsVal) : Bool :=
  match v with
  | .num .nan => true
  | .num n => JsNum.lt n (.fin (-90)) || JsNum.lt (.fin 90) n || n.isZero
  | _ => true

/-- The lng test of `badTelemetry`: not a number, NaN, below -180, above
180, or exactly 0. -/
def lngBad (v : JsVal) : Bool :=
  match v with
  | .num .nan => true
  | .num n => JsNum.lt n (.fin (-180)) || JsNum.lt (.fin 180) n || n.isZero
  | _ => true

/-- An optional field is present (neither `undefined` nor `null`) but
fails the given well-formedness test. -/
def presentAndBad (ok : JsVal → Bool) (v : JsVal) : Bool :=
  !(v == .undef) && !(v == .null) && !(ok v)

def missingTelemetryErr : ErrorObject :=
  ⟨"missing_param", "invalid missing telemetry"⟩

def missingGpsErr : ErrorObject :=
  ⟨"missing_param", "invalid missing gps"⟩

def missingDeviceIdErr : ErrorObject :=
  ⟨"missing_param", "no device_id included in telemetry"⟩

def latErr (v : JsVal) : ErrorObject :=
  ⟨"bad_param", "invalid lat " ++ v.render⟩

def lngErr (v : JsVal) : ErrorObject :=
  ⟨"bad_param", "invalid lng " ++ v.render⟩

def altitudeErr (v : JsVal) : ErrorObject :=
  ⟨"bad_param", "invalid altitude " ++ v.render⟩

def accuracyErr (v : JsVal) : ErrorObject :=
  ⟨"bad_param", "invalid accuracy " ++ v.render⟩

def speedErr (v : JsVal) : ErrorObject :=
  ⟨"bad_param", "invalid speed " ++ v.render⟩

def satellitesErr (v : JsVal) : ErrorObject :=
  ⟨"bad_param", "invalid satellites " ++ v.render⟩

def chargeErr (v : JsVal) : ErrorObject :=
  ⟨"bad_param", "invalid charge " ++ v.render⟩

def timestampErr (v : JsVal) : ErrorObject :=
  ⟨"bad_param", "invalid timestamp " ++ v.render ++ " (note: should be in milliseconds)"⟩

/-- Embedding of `badTelemetry` (agency utils). `Except.error ()` models a
thrown exception: when `gps` is `null`, the `typeof gps !== 'object'`
guard does not fire (in JavaScript `typeof null` is `'object'`) and the
subsequent destructuring of `gps` throws a TypeError. -/
def badTelemetry (p : Prims) (ot : Option Telemetry) : Except Unit (Option ErrorObject) :=
  match ot with
  | none => .ok (some missingTelemetryErr)
  | some t =>
    match t.gps with
    | .undef => .ok (some missingGpsErr)
    | .prim _ => .ok (some missingGpsErr)
    | .null => .error ()
    | .obj g =>
      if !(p.isUUID t.device_id) then .ok (some missingDeviceIdErr)
      else if latBad g.lat then .ok (some (latErr g.lat))
      else if lngBad g.lng then .ok (some (lngErr g.lng))
      else if presentAndBad p.isFloat g.altitude then .ok (some (altitudeErr g.altitude))
      else if presentAndBad p.isFloat g.accuracy then .ok (some (accuracyErr g.accuracy))
      else if presentAndBad p.isFloat g.speed then .ok (some (speedErr g.speed))
      else if presentAndBad JsVal.isInteger g.satellites then .ok (some (satellitesErr g.satellites))
      else if presentAndBad p.isPct t.charge then .ok (some (chargeErr t.charge))
      else if !(p.isTimestamp t.timestamp) then .ok (some (timestampErr t.timestamp))
      else .ok none

/-- First failing check of a precedence-ordered check list. -/
def firstFailure : List (Bool × ErrorObject) → Option ErrorObject
  | [] => none
  | (b, e) :: rest => if b then some e else firstFailure rest

/-- The spec's words for the Telemetry Validator: the checks of §4.1 in
their stated precedence order, first failure wins. The spec reads a
`null` gps as "not an object". -/
def specTelemetryFirstFailure (p : Prims) (ot : Option Telemetry) : Option ErrorObject :=
  match ot with
  | none => some missingTelemetryErr
  | some t =>
    match t.gps with
    | .obj g =>
      firstFailure
        [ (!(p.isUUID t.device_id), missingDeviceIdErr)
        , (latBad g.lat, latErr g.lat)
        , (lngBad g.lng, lngErr g.lng)
        , (presentAndBad p.isFloat g.altitude, altitudeErr g.altitude)
        , (presentAndBad p.isFloat g.accuracy, accuracyErr g.accuracy)
        , (presentAndBad p.isFloat g.speed, speedErr g.speed)
        , (presentAndBad JsVal.isInteger g.satellites, satellitesErr g.satellites)
        , (presentAndBad p.isPct t.charge, chargeErr t.charge)
        , (!(p.isTimestamp t.timestamp), timestampErr t.timestamp) ]
    | _ => some missingGpsErr

/-- Claim C1's right-hand side, formalized from its words: lat and lng in
bounds and nonzero, device_id a UUID, timestamp valid, and every optional
numeric field that is present and non-null well-formed — including
`heading` (as a finite float, like the other numeric fields). -/
def claimC1TelemetryOk (p : Prims) (t : Telemetry) : Bool :=
  match t.gps with
  | .obj g =>
    (match g.lat with
     | .num (.fin q) => decide (-90 ≤ q) && decide (q ≤ 90) && !(q == 0)
     | _ => false) &&
    (match g.lng with
     | .num (.fin q) => decide (-180 ≤ q) && decide (q ≤ 180) && !(q == 0)
     | _ => false) &&
    p.isUUID t.device_id &&
    p.isTimestamp t.timestamp &&
    !(presentAndBad p.isFloat g.altitude) &&
    !(presentAndBad p.isFloat g.accuracy) &&
    !(presentAndBad p.isFloat g.speed) &&
    !(presentAndBad JsVal.isInteger g.satellites) &&
    !(presentAndBad p.isPct t.charge) &&
    !(presentAndBad p.isFloat g.heading)
  | _ => false

/-- A telemetry value that passes every check `badTelemetry` performs,
but whose `heading` is a string, hence not a well-formed numeric field. -/
def telemetryBadHeading : Telemetry :=
  { device_id := .str "aaaaaaaa-aaaa-aaaa-aaaa-aaaaaaaaaaaa"
    timestamp := .num (.fin 1600000000000)
    charge := .undef
    gps :=
      .obj
        { lat := .num (.fin 34)
          lng := .num (.fin (-118))
          altitude := .undef
          accuracy := .undef
          speed := .undef
          satellites := .undef
          heading := .str "northish" } }

/-- A telemetry value whose `gps` slot is `null`. -/
def telemetryNullGps : Telemetry :=
  { device_id := .str "aaaaaaaa-aaaa-aaaa-aaaa-aaaaaaaaaaaa"
    timestamp := .num (.fin 1600000000000)
    charge := .undef
    gps := .null }

/-- C1 (counterexample): `badTelemetry` passes a telemetry whose `heading`
is a string, although the claim's right-hand side demands a well-formed
heading — so the claimed "if and only if" fails at this input. -/
theorem badTelemetry_ignores_heading :
    badTelemetry prims0 (some telemetryBadHeading) = .ok none ∧
    claimC1TelemetryOk prims0 telemetryBadHeading = false := by
  exact ⟨by rfl, by decide⟩

/-- C1 (amended): for every choice of the primitive validators and every
telemetry whose `gps` slot is not `null` (on `null` the code throws, see
C7), `badTelemetry` returns exactly the first failing check of the
claimed precedence list — missing telemetry, gps, device_id, lat, lng,
altitude, accuracy, speed, satellites, charge, timestamp — and returns
`null` iff all of them pass; `heading` is never checked. -/
theorem badTelemetry_eq_specFirstFailure (p : Prims) (ot : Option Telemetry)
    (h : ∀ t, ot = some t → t.gps ≠ .null) :
    badTelemetry p ot = .ok (specTelemetryFirstFailure p ot) := by
  cases ot with
  | none => rfl
  | some t =>
    cases hg : t.gps with
    | null => exact absurd hg (h t rfl)
    | undef => simp [badTelemetry, specTelemetryFirstFailure, hg]
    | prim v => simp [badTelemetry, specTelemetryFirstFailure, hg]
    | obj g =>
      simp only [badTelemetry, specTelemetryFirstFailure, hg]
      split_ifs <;> simp_all [firstFailure]

/-- C1 (witness for the amended theorem at a concrete input). -/
theorem badTelemetry_eq_specFirstFailure_witness :
    badTelemetry prims0 (some telemetryBadHeading) =
      .ok (specTelemetryFirstFailure prims0 (some telemetryBadHeading)) :=
  badTelemetry_eq_specFirstFailure prims0 (some telemetryBadHeading)
    (by intro t ht; injection ht with h; rw [← h]; decide)

/-- C7: `badTelemetry` is not total. On a telemetry whose `gps` is `null`
the guard `typeof gps !== 'object'` does not fire (JavaScript's
`typeof null` is `'object'`), the destructuring of `gps` throws, and no
`missing_param` error is returned; a non-object `gps` such as a number
does return `missing_param` as claimed. -/
theorem badTelemetry_throws_on_null_gps :
    badTelemetry prims0 (some telemetryNullGps) = .error () ∧
    badTelemetry prims0
        (some { telemetryNullGps with gps := .prim (.num (.fin 5)) }) =
      .ok (some missingGpsErr) := by
  exact ⟨rfl, rfl⟩

/-- The runtime value in an event's `event_types` slot: absent/falsy, a
truthy non-array value, or an array of strings. -/
inductive EventTypes where
  | missing : EventTypes
  | notArray : JsVal → EventTypes
  | arr : List String → EventTypes
deriving DecidableEq

/-- Falsiness of the `event_types` slot (`!event.event_types`); an array,
even empty, is truthy. -/
def EventTypes.falsy : EventTypes → Bool
  | .missing => true
  | .notArray v => !v.truthy
  | .arr _ => false

/-- The list of event types, when the slot is an array. -/
def EventTypes.list : EventTypes → List String
  | .arr ts => ts
  | _ => []

/-- Rendering of the slot for interpolated error messages (a JavaScript
array renders as its comma-joined elements). -/
def EventTypes.render : EventTypes → String
  | .missing => "undefined"
  | .notArray v => v.render
  | .arr ts => String.intercalate "," ts

/-- Truthiness of an optional string field (`undefined` and `''` are
falsy). -/
def strTruthy : Option String → Bool
  | none => false
  | some s => !(s == "")

/-- A vehicle event as constructed by the submission handler. -/
structure Event where
  device_id : String
  provider_id : String
  event_types : EventTypes
  vehicle_state : Option String
  trip_state : Option String
  telemetry : Option Telemetry
  timestamp : JsVal
  trip_id : JsVal
deriving DecidableEq

/-- A device's modality as dispatched on by `badEvent`. -/
inductive Modality where
  | micromobility : Modality
  | taxi : Modality
  | tnc : Modality
  | other : Modality
deriving DecidableEq

/-- The per-modality vocabulary tables imported from mds-types, kept
abstract because their sources are outside the provided corpus: legal
event types and vehicle states per modality, the trip states, and the
per-modality trip-exit event sets. -/
structure Vocab where
  microEvents : List String
  microStates : List String
  taxiEvents : List String
  taxiStates : List String
  tncEvents : List String
  tncStates : List String
  tripStates : List String
  taxiTripExitEvents : List String
  tncTripExitEvents : List String

/-- Modelled from the spec: `areThereCommonElements` from mds-utils — the
two lists share at least one element. -/
def commonElements (a b : List String) : Bool :=
  a.any (fun x => b.contains x)

def missingEventTimestampErr : ErrorObject :=
  ⟨"missing_param", "missing enum field \"timestamp\""⟩

def badEventTimestampErr (v : JsVal) : ErrorObject :=
  ⟨"bad_param", "invalid timestamp " ++ v.render⟩

def missingEventTypeErr : ErrorObject :=
  ⟨"missing_param", "missing enum field \"event_type\""⟩

def invalidEventTypesErr (v : JsVal) : ErrorObject :=
  ⟨"bad_param", "invalid event_types " ++ v.render⟩

def emptyEventTypesErr : ErrorObject :=
  ⟨"bad_param", "empty event_types array"⟩

def missingVehicleStateErr : ErrorObject :=
  ⟨"missing_param", "missing enum field \"vehicle_state\""⟩

def invalidEventTypeErr (t : String) : ErrorObject :=
  ⟨"bad_param", "invalid event_type in event_types " ++ t⟩

def invalidVehicleStateErr (s : String) : ErrorObject :=
  ⟨"bad_param", "invalid vehicle_state " ++ s⟩

def missingTripStateErr : ErrorObject :=
  ⟨"missing_param", "missing enum field \"trip_state\" required on trip events"⟩

def invalidTripStateErr (s : String) : ErrorObject :=
  ⟨"bad_param", "invalid trip_state " ++ s⟩

def invalidModalityErr (et : EventTypes) : ErrorObject :=
  ⟨"bad_param", "invalid event_types in " ++ et.render⟩

def uuidTripIdErr (v : JsVal) : ErrorObject :=
  ⟨"bad_param", "invalid trip_id " ++ v.render ++ " is not a UUID"⟩

def missingTripIdErr : ErrorObject :=
  ⟨"missing_param", "missing trip_id"⟩

/-- First event type of the list that is not in the legal set, as rejected
by the per-modality `for` loop of `badEvent`. -/
def vocabEventTypesCheck (legal : List String) (ts : List String) : Option ErrorObject :=
  match ts.find? (fun t => !(legal.contains t)) with
  | some t => some (invalidEventTypeErr t)
  | none => none

/-- The per-modality `vehicle_state` membership check of `badEvent`. -/
def vocabStateCheck (legal : List String) (s : String) : Option ErrorObject :=
  if !(legal.contains s) then some (invalidVehicleStateErr s) else none

/-- The taxi/tnc trip-state guard of `badEvent`: only when `trip_id` is
truthy, the vehicle state is a trip state, and no trip-exit event type is
present, `trip_state` must be present and legal. -/
def tripStateGuard (tripStates exitEvents : List String) (ts : List String)
    (s : String) (e : Event) : Option ErrorObject :=
  if e.trip_id.truthy && tripStates.contains s && !(commonElements exitEvents ts) then
    if !(strTruthy e.trip_state) then some missingTripStateErr
    else if !(tripStates.contains (e.trip_state.getD "")) then
      some (invalidTripStateErr (e.trip_state.getD ""))
    else none
  else none

/-- The modality dispatch of `badEvent` (three vocabulary branches plus
the rejection of an unrecognized modality). -/
def modalityChecks (voc : Vocab) (m : Modality) (ts : List String) (s : String)
    (e : Event) : Option ErrorObject :=
  match m with
  | .micromobility =>
    match vocabEventTypesCheck voc.microEvents ts with
    | some err => some err
    | none => vocabStateCheck voc.microStates s
  | .taxi =>
    match vocabEventTypesCheck voc.taxiEvents ts with
    | some err => some err
    | none =>
      match vocabStateCheck voc.taxiStates s with
      | some err => some err
      | none => tripStateGuard voc.tripStates voc.taxiTripExitEvents ts s e
  | .tnc =>
    match vocabEventTypesCheck voc.tncEvents ts with
    | some err => some err
    | none =>
      match vocabStateCheck voc.tncStates s with
      | some err => some err
      | none => tripStateGuard voc.tripStates voc.tncTripExitEvents ts s e
  | .other => some (invalidModalityErr e.event_types)

/-- The checks of `badEvent` up to and including the modality branch:
timestamp, event_types shape, vehicle_state presence, vocabulary
membership, and (taxi/tnc) the trip-state guard. -/
def badEventPre (p : Prims) (voc : Vocab) (m : Modality) (e : Event) : Option ErrorObject :=
  if e.timestamp == .undef then some missingEventTimestampErr
  else if !(p.isTimestamp e.timestamp) then some (badEventTimestampErr e.timestamp)
  else if e.event_types.falsy then some missingEventTypeErr
  else
    match e.event_types with
    | .missing => some missingEventTypeErr
    | .notArray v => some (invalidEventTypesErr v)
    | .arr ts =>
      if ts.isEmpty then some emptyEventTypesErr
      else if !(strTruthy e.vehicle_state) then some missingVehicleStateErr
      else modalityChecks voc m ts (e.vehicle_state.getD "") e

/-- The empty-string `trip_id` normalization of `badEvent` (tolerance for
a provider that sends `''`). -/
def normTripId (v : JsVal) : JsVal :=
  if v == .str "" then .null else v

/-- The `trip_id` UUID check of `badEvent`: a `trip_id` that is neither
`null` nor `undefined` must be a UUID. -/
def tripIdCheck (p : Prims) (v : JsVal) : Option ErrorObject :=
  if !(v == .null) && !(v == .undef) && !(p.isUUID v) then some (uuidTripIdErr v)
  else none

/-- The trip-boundary event types triggering telemetry and trip_id
requirements. -/
def tripBoundaryEvents : List String :=
  ["trip_start", "trip_end", "trip_enter_jurisdiction", "trip_leave_jurisdiction"]

/-- The trailing, event-specific checks of `badEvent`: trip_id
normalization and UUID check, then the trip-boundary and
`provider_drop_off` telemetry requirements. -/
def badEventTail (p : Prims) (e : Event) : Except Unit (Option ErrorObject) :=
  match tripIdCheck p (normTripId e.trip_id) with
  | some err => .ok (some err)
  | none =>
    if commonElements tripBoundaryEvents e.event_types.list then
      match badTelemetry p e.telemetry with
      | .error u => .error u
      | .ok (some err) => .ok (some err)
      | .ok none =>
        if (normTripId e.trip_id).truthy then .ok none
        else .ok (some missingTripIdErr)
    else if e.event_types.list.contains "provider_drop_off" then badTelemetry p e.telemetry
    else .ok none

/-- Embedding of `badEvent` (agency utils): the early and modality checks
followed by the trailing trip_id/telemetry checks. `Except.error ()`
models a thrown exception (possible via `badTelemetry` on a `null` gps). -/
def badEvent (p : Prims) (voc : Vocab) (m : Modality) (e : Event) : Except Unit (Option ErrorObject) :=
  match badEventPre p voc m e with
  | some err => .ok (some err)
  | none => badEventTail p e

/-- Embedding of `lower` (agency utils): lowercase a string (the `typeof`
guard in the source is vacuous on strings). Defined characterwise so that
it evaluates by reduction. -/
def lower (s : String) : String :=
  ⟨s.data.map Char.toLower⟩

/-- Modelled from the spec: an example instantiation of the per-modality
vocabulary tables of mds-types, whose sources are outside the provided
corpus. Used only to instantiate the abstract `Vocab` in witnesses and
counterexamples. -/
def vocab0 : Vocab :=
  { microEvents := ["trip_start", "trip_end", "trip_enter_jurisdiction",
      "trip_leave_jurisdiction", "provider_drop_off", "battery_low", "on_hours", "off_hours"]
    microStates := ["available", "non_operational", "on_trip", "removed", "reserved",
      "unknown", "elsewhere"]
    taxiEvents := ["trip_start", "trip_end", "comms_lost", "comms_restored",
      "service_start", "service_end", "passenger_transport_start", "passenger_transport_end"]
    taxiStates := ["available", "non_operational", "on_trip", "stopped", "reserved",
      "unknown", "elsewhere", "removed"]
    tncEvents := ["trip_start", "trip_end", "comms_lost", "comms_restored",
      "service_start", "service_end", "passenger_transport_start", "passenger_transport_end"]
    tncStates := ["available", "non_operational", "on_trip", "stopped", "reserved",
      "unknown", "elsewhere", "removed"]
    tripStates := ["on_trip", "reserved", "stopped"]
    taxiTripExitEvents := ["trip_end", "passenger_transport_end"]
    tncTripExitEvents := ["trip_end", "passenger_transport_end"] }

/-- A micromobility `trip_start` event with fully legal vocabulary but no
embedded telemetry. -/
def eventMicroTripStartNoTelemetry : Event :=
  { device_id := "aaaaaaaa-aaaa-aaaa-aaaa-aaaaaaaaaaaa"
    provider_id := "bbbbbbbb-bbbb-bbbb-bbbb-bbbbbbbbbbbb"
    event_types := .arr ["trip_start"]
    vehicle_state := some "on_trip"
    trip_state := none
    telemetry := none
    timestamp := .num (.fin 1600000000000)
    trip_id := .null }

/-- A plain micromobility event touching none of the trailing checks. -/
def eventMicroBatteryLow : Event :=
  { device_id := "aaaaaaaa-aaaa-aaaa-aaaa-aaaaaaaaaaaa"
    provider_id := "bbbbbbbb-bbbb-bbbb-bbbb-bbbbbbbbbbbb"
    event_types := .arr ["battery_low"]
    vehicle_state := some "available"
    trip_state := none
    telemetry := none
    timestamp := .num (.fin 1600000000000)
    trip_id := .null }

/-- The per-modality event-type loop rejects nothing exactly when every
event type is legal. -/
theorem vocabEventTypesCheck_eq_none_iff (legal ts : List String) :
    vocabEventTypesCheck legal ts = none ↔ ∀ t ∈ ts, t ∈ legal := by
  unfold vocabEventTypesCheck
  cases hfind : ts.find? (fun t => !(legal.contains t)) with
  | some t =>
    have hmem := List.mem_of_find?_eq_some hfind
    have hbad := List.find?_some hfind
    simp only [Bool.not_eq_eq_eq_not, Bool.not_true] at hbad
    simp only [reduceCtorEq, false_iff, not_forall]
    exact ⟨t, hmem, by simpa [List.contains, List.elem_iff] using hbad⟩
  | none =>
    have hall := List.find?_eq_none.mp hfind
    simp only [true_iff]
    intro t ht
    have := hall t ht
    simpa [List.contains, List.elem_iff] using this

/-- The per-modality state check rejects nothing exactly when the state is
legal. -/
theorem vocabStateCheck_eq_none_iff (legal : List String) (s : String) :
    vocabStateCheck legal s = none ↔ s ∈ legal := by
  unfold vocabStateCheck
  cases hc : legal.contains s with
  | true => simpa [List.contains, List.elem_iff] using hc
  | false =>
    simp only [Bool.not_false, if_true, reduceCtorEq, false_iff]
    intro hmem
    have : legal.contains s = true := List.elem_iff.mpr hmem
    rw [hc] at this
    cases this

/-- The early checks of `badEvent` accept a micromobility event exactly
when the vocabulary conditions hold (under the shape assumptions). -/
theorem micromobility_pre_none_iff (p : Prims) (voc : Vocab) (e : Event) (ts : List String)
    (hts : e.event_types = .arr ts)
    (hne : ts ≠ [])
    (htu : e.timestamp ≠ .undef)
    (hT : p.isTimestamp e.timestamp = true) :
    badEventPre p voc .micromobility e = none ↔
      ((∀ t ∈ ts, t ∈ voc.microEvents) ∧
        ∃ s, e.vehicle_state = some s ∧ s ≠ "" ∧ s ∈ voc.microStates) := by
  have h1 : (e.timestamp == JsVal.undef) = false := by
    simp only [beq_eq_false_iff_ne, ne_eq]
    exact htu
  unfold badEventPre
  rw [h1, hts, hT]
  cases ts with
  | nil => exact absurd rfl hne
  | cons a l =>
    cases hvs : e.vehicle_state with
    | none => simp [strTruthy, hvs, EventTypes.falsy]
    | some s =>
      by_cases hs : s = ""
      · subst hs
        simp [strTruthy, hvs, EventTypes.falsy]
      · have h2 : strTruthy (some s) = true := by
          simp [strTruthy, hs]
        simp only [EventTypes.falsy, List.isEmpty_cons, hvs, h2, Bool.not_true,
          Bool.false_eq_true, if_false, Option.getD_some, Option.some.injEq,
          modalityChecks]
        cases hA : vocabEventTypesCheck voc.microEvents (a :: l) with
        | some err =>
          have hA' := (vocabEventTypesCheck_eq_none_iff voc.microEvents (a :: l))
          rw [hA] at hA'
          simp only [reduceCtorEq, false_iff, not_forall] at hA'
          obtain ⟨t, ht, hbad⟩ := hA'
          simp only [reduceCtorEq, false_iff, not_and, not_exists]
          intro hall
          exact absurd (hall t ht) hbad
        | none =>
          have hA' := (vocabEventTypesCheck_eq_none_iff voc.microEvents (a :: l)).mp hA
          rw [vocabStateCheck_eq_none_iff]
          constructor
          · intro hmem
            exact ⟨hA', s, rfl, hs, hmem⟩
          · rintro ⟨-, s', hss', -, hmem⟩
            cases hss'
            exact hmem

/-- C2 (counterexample): a micromobility event whose every event type and
vehicle state are in the vocabularies, with a valid timestamp and a
non-empty `event_types` array, is nevertheless rejected (missing
telemetry for a trip-boundary event), so "accepts iff vocabulary
membership" fails. -/
theorem badEvent_micromobility_vocab_not_sufficient :
    (eventMicroTripStartNoTelemetry.event_types = .arr ["trip_start"] ∧
      vocab0.microEvents.contains "trip_start" = true ∧
      eventMicroTripStartNoTelemetry.vehicle_state = some "on_trip" ∧
      vocab0.microStates.contains "on_trip" = true ∧
      prims0.isTimestamp eventMicroTripStartNoTelemetry.timestamp = true) ∧
    badEvent prims0 vocab0 .micromobility eventMicroTripStartNoTelemetry =
      .ok (some missingTelemetryErr) := by
  exact ⟨by decide, by rfl⟩

/-- C2 (amended): for a micromobility event with a valid timestamp, a
non-empty `event_types` array, an absent `trip_id`, and event types that
avoid the trip-boundary set and `provider_drop_off` (so that the trailing
telemetry/trip checks do not fire), `badEvent` accepts exactly when every
event type is in the micromobility event vocabulary and the vehicle state
is present and in the micromobility state vocabulary. -/
theorem badEvent_micromobility_accepts_iff (p : Prims) (voc : Vocab) (e : Event) (ts : List String)
    (hts : e.event_types = .arr ts)
    (hne : ts ≠ [])
    (htu : e.timestamp ≠ .undef)
    (hT : p.isTimestamp e.timestamp = true)
    (htrip : e.trip_id = .null ∨ e.trip_id = .undef)
    (hbound : commonElements tripBoundaryEvents ts = false)
    (hdrop : ts.contains "provider_drop_off" = false) :
    badEvent p voc .micromobility e = .ok none ↔
      ((∀ t ∈ ts, t ∈ voc.microEvents) ∧
        ∃ s, e.vehicle_state = some s ∧ s ≠ "" ∧ s ∈ voc.microStates) := by
  have htid : tripIdCheck p (normTripId e.trip_id) = none := by
    rcases htrip with h | h <;> simp [h, normTripId, tripIdCheck]
  have htail : badEventTail p e = .ok none := by
    unfold badEventTail
    rw [htid, hts]
    simp only [EventTypes.list, hbound, Bool.false_eq_true, if_false, hdrop]
  rw [← micromobility_pre_none_iff p voc e ts hts hne htu hT]
  unfold badEvent
  cases hpre : badEventPre p voc .micromobility e with
  | none => simp [htail]
  | some err => simp

/-- C2 (witness for the amended theorem at a concrete input). -/
theorem badEvent_micromobility_accepts_iff_witness :
    badEvent prims0 vocab0 .micromobility eventMicroBatteryLow = .ok none :=
  (badEvent_micromobility_accepts_iff prims0 vocab0 eventMicroBatteryLow ["battery_low"]
      (by decide) (by decide) (by decide) (by decide) (Or.inl (by decide))
      (by decide) (by decide)).mpr (by decide)

/-- Legal event types of a modality (selector over the vocabulary). -/
def modalityEvents (voc : Vocab) : Modality → List String
  | .micromobility => voc.microEvents
  | .taxi => voc.taxiEvents
  | .tnc => voc.tncEvents
  | .other => []

/-- Legal vehicle states of a modality (selector over the vocabulary). -/
def modalityStates (voc : Vocab) : Modality → List String
  | .micromobility => voc.microStates
  | .taxi => voc.taxiStates
  | .tnc => voc.tncStates
  | .other => []

/-- Trip-exit event types of a modality (selector over the vocabulary). -/
def modalityTripExitEvents (voc : Vocab) : Modality → List String
  | .micromobility => []
  | .taxi => voc.taxiTripExitEvents
  | .tnc => voc.tncTripExitEvents
  | .other => []

/-- A timestamp that is not `undefined` compares unequal to it. -/
theorem beq_undef_false {v : JsVal} (h : v ≠ .undef) : (v == JsVal.undef) = false := by
  simp only [beq_eq_false_iff_ne, ne_eq]
  exact h

/-- A taxi event, in a trip state, with no trip-exit event type and no
`trip_id` and no `trip_state` at all. -/
def eventTaxiCommsLost : Event :=
  { device_id := "aaaaaaaa-aaaa-aaaa-aaaa-aaaaaaaaaaaa"
    provider_id := "bbbbbbbb-bbbb-bbbb-bbbb-bbbbbbbbbbbb"
    event_types := .arr ["comms_lost"]
    vehicle_state := some "stopped"
    trip_state := none
    telemetry := none
    timestamp := .num (.fin 1600000000000)
    trip_id := .null }

/-- A taxi event, in a trip state, carrying a `trip_id` but no
`trip_state`. -/
def eventTaxiGuardMissing : Event :=
  { device_id := "aaaaaaaa-aaaa-aaaa-aaaa-aaaaaaaaaaaa"
    provider_id := "bbbbbbbb-bbbb-bbbb-bbbb-bbbbbbbbbbbb"
    event_types := .arr ["passenger_transport_start"]
    vehicle_state := some "on_trip"
    trip_state := none
    telemetry := none
    timestamp := .num (.fin 1600000000000)
    trip_id := .str "cccccccc-cccc-cccc-cccc-cccccccccccc" }

/-- C3 (counterexample): a taxi event whose `vehicle_state` is in
TRIP_STATES and whose `event_types` are disjoint from the taxi trip-exit
set, yet which carries no `trip_state` at all, is accepted by `badEvent`
because its `trip_id` is absent — the guard only fires on a truthy
`trip_id`, which the claim omits. -/
theorem badEvent_taxi_accepts_without_trip_state :
    ("stopped" ∈ vocab0.tripStates ∧
      commonElements vocab0.taxiTripExitEvents ["comms_lost"] = false ∧
      eventTaxiCommsLost.event_types = .arr ["comms_lost"] ∧
      eventTaxiCommsLost.vehicle_state = some "stopped" ∧
      eventTaxiCommsLost.trip_state = none) ∧
    badEvent prims0 vocab0 .taxi eventTaxiCommsLost = .ok none := by
  exact ⟨by decide, by rfl⟩

/-- C3 (amended): for a taxi or tnc event that reaches the trip-state
guard — valid timestamp, non-empty legal event types, legal vehicle state
— and whose `trip_id` is truthy, whose `vehicle_state` is in TRIP_STATES,
and whose `event_types` are disjoint from the modality's trip-exit set,
`badEvent` rejects a missing/empty `trip_state` with `missing_param` and
an illegal one with `bad_param`. -/
theorem badEvent_trip_state_guard (p : Prims) (voc : Vocab) (m : Modality) (e : Event)
    (ts : List String) (s : String)
    (hm : m = .taxi ∨ m = .tnc)
    (hts : e.event_types = .arr ts)
    (hne : ts ≠ [])
    (htu : e.timestamp ≠ .undef)
    (hT : p.isTimestamp e.timestamp = true)
    (hvs : e.vehicle_state = some s)
    (hs : s ≠ "")
    (hallev : ∀ t ∈ ts, t ∈ modalityEvents voc m)
    (hstate : s ∈ modalityStates voc m)
    (htrip : e.trip_id.truthy = true)
    (htripstate : s ∈ voc.tripStates)
    (hexit : commonElements (modalityTripExitEvents voc m) ts = false) :
    (strTruthy e.trip_state = false →
      badEvent p voc m e = .ok (some missingTripStateErr)) ∧
    (∀ tsv, e.trip_state = some tsv → tsv ≠ "" → tsv ∉ voc.tripStates →
      badEvent p voc m e = .ok (some (invalidTripStateErr tsv))) := by
  have h1 := beq_undef_false htu
  have h2 : strTruthy e.vehicle_state = true := by
    simp [hvs, strTruthy, hs]
  have hguard : (e.trip_id.truthy && voc.tripStates.contains s &&
      !(commonElements (modalityTripExitEvents voc m) ts)) = true := by
    have hc : voc.tripStates.contains s = true := List.elem_iff.mpr htripstate
    simp [htrip, hc, hexit, htripstate]
  have hpre : badEventPre p voc m e =
      tripStateGuard voc.tripStates (modalityTripExitEvents voc m) ts s e := by
    unfold badEventPre
    rw [h1, hts, hT]
    cases ts with
    | nil => exact absurd rfl hne
    | cons a l =>
      rcases hm with h | h <;> subst h
      · have hA : vocabEventTypesCheck voc.taxiEvents (a :: l) = none :=
          (vocabEventTypesCheck_eq_none_iff _ _).mpr (by simpa [modalityEvents] using hallev)
        have hB : vocabStateCheck voc.taxiStates s = none :=
          (vocabStateCheck_eq_none_iff _ _).mpr (by simpa [modalityStates] using hstate)
        simp only [EventTypes.falsy, List.isEmpty_cons, hvs, h2, Bool.not_true,
          Bool.false_eq_true, if_false, Option.getD_some, modalityChecks, hA, hB,
          modalityTripExitEvents]
        simp [strTruthy, hs]
      · have hA : vocabEventTypesCheck voc.tncEvents (a :: l) = none :=
          (vocabEventTypesCheck_eq_none_iff _ _).mpr (by simpa [modalityEvents] using hallev)
        have hB : vocabStateCheck voc.tncStates s = none :=
          (vocabStateCheck_eq_none_iff _ _).mpr (by simpa [modalityStates] using hstate)
        simp only [EventTypes.falsy, List.isEmpty_cons, hvs, h2, Bool.not_true,
          Bool.false_eq_true, if_false, Option.getD_some, modalityChecks, hA, hB,
          modalityTripExitEvents]
        simp [strTruthy, hs]
  constructor
  · intro hmiss
    have hg : tripStateGuard voc.tripStates (modalityTripExitEvents voc m) ts s e =
        some missingTripStateErr := by
      unfold tripStateGuard
      rw [hguard, hmiss]
      simp
    unfold badEvent
    rw [hpre, hg]
  · intro tsv htsv htsv1 htsv2
    have hst : strTruthy e.trip_state = true := by
      simp [htsv, strTruthy, htsv1]
    have hnc : voc.tripStates.contains tsv = false := by
      cases hcc : voc.tripStates.contains tsv with
      | false => rfl
      | true => exact absurd (List.elem_iff.mp hcc) htsv2
    have hg : tripStateGuard voc.tripStates (modalityTripExitEvents voc m) ts s e =
        some (invalidTripStateErr tsv) := by
      unfold tripStateGuard
      rw [hguard, hst, htsv]
      simp [hnc, htsv2]
    unfold badEvent
    rw [hpre, hg]

/-- C3 (witness for the amended theorem at a concrete input): a taxi trip
event carrying a `trip_id` but no `trip_state` is rejected with
`missing_param`. -/
theorem badEvent_trip_state_guard_witness :
    badEvent prims0 vocab0 .taxi eventTaxiGuardMissing = .ok (some missingTripStateErr) :=
  (badEvent_trip_state_guard prims0 vocab0 .taxi eventTaxiGuardMissing
      ["passenger_transport_start"] "on_trip" (Or.inl rfl) (by decide) (by decide)
      (by decide) (by decide) (by decide) (by decide) (by decide) (by decide)
      (by decide) (by decide) (by decide)).1 (by decide)

/-- C6: for an event that passes all checks before the trip-boundary
block (early checks pass, trip_id UUID gate passes) and whose event types
meet the trip-boundary set, `badEvent` returns the telemetry validator's
verdict on the embedded telemetry first, and only when that passes
requires a truthy `trip_id` (else `missing_param` "missing trip_id") —
the telemetry error takes precedence over the missing-trip_id error. -/
theorem badEvent_trip_boundary_telemetry_precedence (p : Prims) (voc : Vocab)
    (m : Modality) (e : Event)
    (hpre : badEventPre p voc m e = none)
    (htid : tripIdCheck p (normTripId e.trip_id) = none)
    (hbound : commonElements tripBoundaryEvents e.event_types.list = true) :
    badEvent p voc m e =
      (match badTelemetry p e.telemetry with
       | .error u => .error u
       | .ok (some err) => .ok (some err)
       | .ok none =>
         if (normTripId e.trip_id).truthy then .ok none
         else .ok (some missingTripIdErr)) := by
  unfold badEvent
  rw [hpre]
  unfold badEventTail
  rw [htid, hbound]
  simp

/-- C6 (witness at a concrete input): a `trip_start` event with neither
telemetry nor trip_id gets the telemetry error, showing the precedence. -/
theorem badEvent_trip_boundary_telemetry_precedence_witness :
    badEvent prims0 vocab0 .micromobility eventMicroTripStartNoTelemetry =
      .ok (some missingTelemetryErr) :=
  (badEvent_trip_boundary_telemetry_precedence prims0 vocab0 .micromobility
      eventMicroTripStartNoTelemetry (by decide) (by decide) (by decide)).trans (by rfl)

/-- C8: `badEvent` treats an empty-string `trip_id` exactly like an
absent one (the normalization rule), the normalized empty string passes
the UUID gate (it is never rejected as a non-UUID), the UUID gate fires
exactly on a present (non-null, non-undefined) value that is not a UUID,
and when it fires on an event whose earlier checks passed, `badEvent`
rejects with the `bad_param` trip_id error. -/
theorem badEvent_trip_id_rules (p : Prims) (voc : Vocab) (m : Modality) (e : Event)
    (hpre : badEventPre p voc m e = none) :
    badEvent p voc m { e with trip_id := .str "" } =
        badEvent p voc m { e with trip_id := .null } ∧
    normTripId (.str "") = .null ∧
    tripIdCheck p (normTripId (.str "")) = none ∧
    (∀ v : JsVal, tripIdCheck p v =
      (if !(v == .null) && !(v == .undef) && !(p.isUUID v)
       then some (uuidTripIdErr v) else none)) ∧
    ((!(normTripId e.trip_id == .null) && !(normTripId e.trip_id == .undef) &&
        !(p.isUUID (normTripId e.trip_id))) = true →
      badEvent p voc m e = .ok (some (uuidTripIdErr (normTripId e.trip_id)))) := by
  refine ⟨?_, by decide, by simp [normTripId, tripIdCheck], fun v => rfl, ?_⟩
  · obtain ⟨d, pr, et, vs, tst, tel, tsp, tid⟩ := e
    unfold badEvent badEventPre modalityChecks tripStateGuard badEventTail
    simp [normTripId, JsVal.truthy]
  · intro hcond
    have htid : tripIdCheck p (normTripId e.trip_id) =
        some (uuidTripIdErr (normTripId e.trip_id)) := by
      unfold tripIdCheck
      rw [hcond]
      simp
    unfold badEvent
    rw [hpre]
    unfold badEventTail
    rw [htid]

/-- An event whose `trip_id` is a non-UUID string. -/
def eventMicroBadTripId : Event :=
  { eventMicroBatteryLow with trip_id := .str "not-a-uuid" }

/-- C8 (witness at a concrete input): a non-UUID `trip_id` on an
otherwise valid event is rejected with the `bad_param` trip_id error. -/
theorem badEvent_trip_id_rules_witness :
    badEvent prims0 vocab0 .micromobility eventMicroBadTripId =
      .ok (some (uuidTripIdErr (.str "not-a-uuid"))) :=
  (badEvent_trip_id_rules prims0 vocab0 .micromobility eventMicroBadTripId
      (by decide)).2.2.2.2 (by decide)

/-- A registered device, as the pipeline reads it from the store of
record. -/
structure DeviceRec where
  device_id : String
  provider_id : String
  modality : Modality
deriving DecidableEq

/-- The `{device?, event?, telemetry?}` payload assembled by
`readPayload`. -/
structure VehiclePayload where
  device : Option DeviceRec
  event : Option Event
  telemetry : Option Telemetry

/-- The externally visible composite vehicle record. -/
structure CompositeVehicle where
  base : Option DeviceRec
  prev_events : EventTypes
  updated : Option JsVal
  state : Option String
  gps : Option GpsVal
deriving DecidableEq

/-- The telemetry part of the composite: `gps` is copied exactly when a
telemetry with a truthy `gps` slot is present. -/
def compositeGps (telemetry : Option Telemetry) : Option GpsVal :=
  match telemetry with
  | some t => if t.gps.truthy then some t.gps else none
  | none => none

/-- Embedding of `computeCompositeVehicleData` (agency utils). -/
def computeCompositeVehicleData (payload : VehiclePayload) : CompositeVehicle :=
  match payload.event with
  | some ev =>
    { base := payload.device
      prev_events := ev.event_types
      updated := some ev.timestamp
      state := ev.vehicle_state
      gps := compositeGps payload.telemetry }
  | none =>
    { base := payload.device
      prev_events := .arr ["decommissioned"]
      updated := none
      state := some "removed"
      gps := compositeGps payload.telemetry }

/-- The composite `gps` is `some g` exactly when the payload carries a
telemetry whose truthy `gps` slot is `g`. -/
theorem compositeGps_eq_some_iff (tel : Option Telemetry) (g : GpsVal) :
    compositeGps tel = some g ↔ ∃ t, tel = some t ∧ t.gps = g ∧ g.truthy = true := by
  cases tel with
  | none => simp [compositeGps]
  | some t =>
    cases htr : t.gps.truthy with
    | true =>
      simp only [compositeGps, htr, if_true, Option.some.injEq]
      constructor
      · intro h
        exact ⟨t, rfl, h, h ▸ htr⟩
      · rintro ⟨t', ht', hg, -⟩
        cases ht'
        exact hg
    | false =>
      simp only [compositeGps, htr, Bool.false_eq_true, if_false]
      constructor
      · intro h
        cases h
      · rintro ⟨t', ht', hg, hgt⟩
        cases ht'
        rw [← hg, htr] at hgt
        cases hgt

/-- C9: `computeCompositeVehicleData` reports `state = event.vehicle_state`,
`prev_events = event.event_types` and `updated = event.timestamp` when an
event is present, the sentinels `removed` / `['decommissioned']` when no
event is present, and copies `gps` from the telemetry exactly when a
telemetry with a (truthy) `gps` field is present. -/
theorem computeCompositeVehicleData_spec (payload : VehiclePayload) :
    (computeCompositeVehicleData payload).state =
      (match payload.event with
       | some ev => ev.vehicle_state
       | none => some "removed") ∧
    (computeCompositeVehicleData payload).prev_events =
      (match payload.event with
       | some ev => ev.event_types
       | none => .arr ["decommissioned"]) ∧
    (computeCompositeVehicleData payload).updated = payload.event.map Event.timestamp ∧
    (∀ g : GpsVal, (computeCompositeVehicleData payload).gps = some g ↔
      ∃ t, payload.telemetry = some t ∧ t.gps = g ∧ g.truthy = true) := by
  obtain ⟨dev, ev, tel⟩ := payload
  refine ⟨?_, ?_, ?_, fun g => ?_⟩
  · cases ev <;> rfl
  · cases ev <;> rfl
  · cases ev <;> rfl
  · cases ev <;> exact compositeGps_eq_some_iff tel g

/-- The request body of a vehicle-event submission. -/
structure ReqBody where
  event_types : EventTypes
  vehicle_state : Option String
  trip_state : Option String
  telemetry : Option Telemetry
  timestamp : JsVal
  trip_id : JsVal
deriving DecidableEq

/-- Embedding of the event construction in `submitVehicleEvent`: event
types are lowercased elementwise when an array is supplied, `trip_state`
is forced to null when falsy, all other fields are passed through
(the telemetry's provider_id stamp is not modelled). -/
def buildEvent (device_id provider_id : String) (b : ReqBody) : Event :=
  { device_id := device_id
    provider_id := provider_id
    event_types :=
      match b.event_types with
      | .arr ts => .arr (ts.map lower)
      | other => other
    vehicle_state := b.vehicle_state
    trip_state := if strTruthy b.trip_state then b.trip_state else none
    telemetry := b.telemetry
    timestamp := b.timestamp
    trip_id := b.trip_id }

/-- The defensive `event.telemetry.device_id = event.device_id`
denormalization of `submitVehicleEvent`. -/
def attachTelemetry (e : Event) : Event :=
  match e.telemetry with
  | some t => { e with telemetry := some { t with device_id := .str e.device_id } }
  | none => e

/-- The durable store of record: registered devices, accepted events, and
the (device_id, timestamp) keys of recorded telemetry. -/
structure World where
  devices : List DeviceRec
  events : List Event
  telemetryKeys : List (String × JsVal)
deriving DecidableEq

/-- Modelled from the spec: `db.readDevice(device_id, provider_id)`
resolves the device or fails not-found. -/
def readDevice (w : World) (device_id provider_id : String) : Option DeviceRec :=
  w.devices.find? fun d => d.device_id == device_id && d.provider_id == provider_id

/-- An event with this (device_id, timestamp) key is already stored. -/
def hasEventKey (w : World) (device_id : String) (timestamp : JsVal) : Bool :=
  w.events.any fun ev => ev.device_id == device_id && ev.timestamp == timestamp

/-- Modelled from the spec: `db.writeTelemetry` deduplicates against
existing (device_id, timestamp) rows, silently absorbing duplicates and
recording only new rows. -/
def dbWriteTelemetry (w : World) (device_id : String) (t : Telemetry) : World :=
  if w.telemetryKeys.contains (device_id, t.timestamp) then w
  else { w with telemetryKeys := (device_id, t.timestamp) :: w.telemetryKeys }

/-- Modelled from the spec: `db.writeEvent` fails with a duplicate error
on a (device_id, timestamp) collision, else records the event. -/
def dbWriteEvent (w : World) (e : Event) : Except Unit World :=
  if hasEventKey w e.device_id e.timestamp then .error ()
  else .ok { w with events := e :: w.events }

/-- The durable telemetry write preceding the event write in
`submitVehicleEvent`, when the event embeds a telemetry. -/
def writeEventTelemetry (w : World) (e : Event) : World :=
  match e.telemetry with
  | some t => dbWriteTelemetry w e.device_id t
  | none => w

/-- A response body sent by the handler. -/
inductive RespBody where
  | success (device_id : String) (state : Option String) : RespBody
  | failure (err : ErrorObject) : RespBody
  | serverError : RespBody
deriving DecidableEq

/-- An HTTP response: status code and body. -/
structure Resp where
  status : Nat
  body : RespBody
deriving DecidableEq

def duplicateEventErr : ErrorObject :=
  ⟨"bad_param", "An event with this device_id and timestamp has already been received"⟩

def unregisteredErr : ErrorObject :=
  ⟨"unregistered", "The specified device_id has not been registered"⟩

/-- The validation step of `submitVehicleEvent`:
`badEvent(device, event) || (event.telemetry ? badTelemetry(...) : null)`. -/
def eventFailure (p : Prims) (voc : Vocab) (m : Modality) (e : Event) :
    Except Unit (Option ErrorObject) := do
  match ← badEvent p voc m e with
  | some f => pure (some f)
  | none =>
    match e.telemetry with
    | some t => badTelemetry p (some t)
    | none => pure none

/-- Whether the cache/stream fan-out of the submission succeeds; when
false, the `Promise.all` calls of the fan-out throw. -/
structure Flags where
  fanoutOk : Bool
deriving DecidableEq

/-- Embedding of `submitVehicleEvent` (request handlers): resolve the
device (unknown → 400 `unregistered` via `fail`), build and validate the
event (a throw inside validation is caught → 500 server error; a
validation failure → 400 with the validator's error), durably write the
embedded telemetry and then the event (duplicate key → 400 via `fail`),
then attempt the cache/stream fan-out — its failure is caught and the
201 success with `{device_id, state}` is sent either way. Only the
durable store is tracked as state; cache/stream contents are not. -/
def submitVehicleEvent (p : Prims) (voc : Vocab) (fl : Flags) (w : World)
    (device_id provider_id : String) (b : ReqBody) : Resp × World :=
  match readDevice w device_id provider_id with
  | none => (⟨400, .failure unregisteredErr⟩, w)
  | some dev =>
    let event := attachTelemetry (buildEvent device_id provider_id b)
    match eventFailure p voc dev.modality event with
    | .error _ => (⟨500, .serverError⟩, w)
    | .ok (some f) => (⟨400, .failure f⟩, w)
    | .ok none =>
      let w1 := writeEventTelemetry w event
      match dbWriteEvent w1 event with
      | .error _ => (⟨400, .failure duplicateEventErr⟩, w1)
      | .ok w2 =>
        if fl.fanoutOk then (⟨201, .success event.device_id event.vehicle_state⟩, w2)
        else (⟨201, .success event.device_id event.vehicle_state⟩, w2)

theorem attachTelemetry_device_id (e : Event) :
    (attachTelemetry e).device_id = e.device_id := by
  unfold attachTelemetry
  cases e.telemetry <;> rfl

theorem attachTelemetry_timestamp (e : Event) :
    (attachTelemetry e).timestamp = e.timestamp := by
  unfold attachTelemetry
  cases e.telemetry <;> rfl

theorem attachTelemetry_vehicle_state (e : Event) :
    (attachTelemetry e).vehicle_state = e.vehicle_state := by
  unfold attachTelemetry
  cases e.telemetry <;> rfl

theorem writeEventTelemetry_events (w : World) (e : Event) :
    (writeEventTelemetry w e).events = w.events := by
  unfold writeEventTelemetry dbWriteTelemetry
  cases e.telemetry with
  | none => rfl
  | some t =>
    by_cases hc : (e.device_id, t.timestamp) ∈ w.telemetryKeys <;> simp [hc]

theorem writeEventTelemetry_devices (w : World) (e : Event) :
    (writeEventTelemetry w e).devices = w.devices := by
  unfold writeEventTelemetry dbWriteTelemetry
  cases e.telemetry with
  | none => rfl
  | some t =>
    by_cases hc : (e.device_id, t.timestamp) ∈ w.telemetryKeys <;> simp [hc]

theorem writeEventTelemetry_key (w : World) (e : Event) (t : Telemetry)
    (h : e.telemetry = some t) :
    (writeEventTelemetry w e).telemetryKeys.contains (e.device_id, t.timestamp) = true := by
  unfold writeEventTelemetry dbWriteTelemetry
  rw [h]
  by_cases hc : (e.device_id, t.timestamp) ∈ w.telemetryKeys <;> simp [hc]

theorem writeEventTelemetry_absorb (w : World) (e : Event)
    (h : ∀ t, e.telemetry = some t →
      w.telemetryKeys.contains (e.device_id, t.timestamp) = true) :
    writeEventTelemetry w e = w := by
  unfold writeEventTelemetry dbWriteTelemetry
  cases ht : e.telemetry with
  | none => rfl
  | some t =>
    have hm : (e.device_id, t.timestamp) ∈ w.telemetryKeys := List.elem_iff.mp (h t ht)
    simp [hm]

theorem hasEventKey_writeEventTelemetry (w : World) (e : Event) (a : String) (ts : JsVal) :
    hasEventKey (writeEventTelemetry w e) a ts = hasEventKey w a ts := by
  unfold hasEventKey
  rw [writeEventTelemetry_events]

theorem readDevice_writeEventTelemetry (w : World) (e : Event) (a pid : String) :
    readDevice (writeEventTelemetry w e) a pid = readDevice w a pid := by
  unfold readDevice
  rw [writeEventTelemetry_devices]

/-- A successful submission: device known, validation passes, key fresh —
the response is 201 with `{device_id, state}` and the event is recorded
after the telemetry write. -/
theorem submitVehicleEvent_success_step (p : Prims) (voc : Vocab) (fl : Flags) (w : World)
    (device_id provider_id : String) (b : ReqBody) (dev : DeviceRec)
    (hdev : readDevice w device_id provider_id = some dev)
    (hval : eventFailure p voc dev.modality
      (attachTelemetry (buildEvent device_id provider_id b)) = .ok none)
    (hfresh : hasEventKey w device_id b.timestamp = false) :
    submitVehicleEvent p voc fl w device_id provider_id b =
      (⟨201, .success device_id b.vehicle_state⟩,
       { writeEventTelemetry w (attachTelemetry (buildEvent device_id provider_id b)) with
         events := attachTelemetry (buildEvent device_id provider_id b) ::
           (writeEventTelemetry w (attachTelemetry (buildEvent device_id provider_id b))).events }) := by
  set e := attachTelemetry (buildEvent device_id provider_id b) with he
  have hid : e.device_id = device_id := by
    rw [he, attachTelemetry_device_id]
    rfl
  have hts : e.timestamp = b.timestamp := by
    rw [he, attachTelemetry_timestamp]
    rfl
  have hvs : e.vehicle_state = b.vehicle_state := by
    rw [he, attachTelemetry_vehicle_state]
    rfl
  have hkey : hasEventKey (writeEventTelemetry w e) e.device_id e.timestamp = false := by
    rw [hasEventKey_writeEventTelemetry, hid, hts]
    exact hfresh
  have hdb : dbWriteEvent (writeEventTelemetry w e) e =
      .ok { writeEventTelemetry w e with events := e :: (writeEventTelemetry w e).events } := by
    unfold dbWriteEvent
    rw [hkey]
    simp
  simp only [submitVehicleEvent, hdev, ← he, hval, hdb, ite_self, hid, hvs]

/-- C4 (amended): submitting the same event twice (device known,
validation passing, key initially fresh) yields a 201 success the first
time; the second submission is rejected with status 400 and body
`{error: "bad_param", error_description: "An event with this device_id
and timestamp has already been received"}` — the spec's duplicate-class
rejection, whose error field however reads `bad_param` — and the durable
store is unaffected by the second submission. -/
theorem submitVehicleEvent_duplicate_law (p : Prims) (voc : Vocab) (fl1 fl2 : Flags)
    (w : World) (device_id provider_id : String) (b : ReqBody) (dev : DeviceRec)
    (hdev : readDevice w device_id provider_id = some dev)
    (hval : eventFailure p voc dev.modality
      (attachTelemetry (buildEvent device_id provider_id b)) = .ok none)
    (hfresh : hasEventKey w device_id b.timestamp = false) :
    (submitVehicleEvent p voc fl1 w device_id provider_id b).1 =
      ⟨201, .success device_id b.vehicle_state⟩ ∧
    (submitVehicleEvent p voc fl2 (submitVehicleEvent p voc fl1 w device_id provider_id b).2
        device_id provider_id b).1 = ⟨400, .failure duplicateEventErr⟩ ∧
    (submitVehicleEvent p voc fl2 (submitVehicleEvent p voc fl1 w device_id provider_id b).2
        device_id provider_id b).2 =
      (submitVehicleEvent p voc fl1 w device_id provider_id b).2 := by
  have hstep := submitVehicleEvent_success_step p voc fl1 w device_id provider_id b dev
    hdev hval hfresh
  set e := attachTelemetry (buildEvent device_id provider_id b) with he
  set wT := writeEventTelemetry w e with hwT
  set w2 : World := { wT with events := e :: wT.events } with hw2
  have hd2 : w2.devices = w.devices := by
    rw [hw2]
    show wT.devices = w.devices
    rw [hwT]
    exact writeEventTelemetry_devices w e
  have hdev2 : readDevice w2 device_id provider_id = some dev := by
    unfold readDevice at hdev ⊢
    rw [hd2]
    exact hdev
  have habs : writeEventTelemetry w2 e = w2 := by
    apply writeEventTelemetry_absorb
    intro t ht
    show wT.telemetryKeys.contains (e.device_id, t.timestamp) = true
    rw [hwT]
    exact writeEventTelemetry_key w e t ht
  have hdup : hasEventKey w2 e.device_id e.timestamp = true := by
    unfold hasEventKey
    show (e :: wT.events).any _ = true
    simp
  have hdb2 : dbWriteEvent w2 e = .error () := by
    unfold dbWriteEvent
    rw [hdup]
    simp
  have hsecond : submitVehicleEvent p voc fl2 w2 device_id provider_id b =
      (⟨400, .failure duplicateEventErr⟩, w2) := by
    simp only [submitVehicleEvent, hdev2, ← he, hval, habs, hdb2]
  refine ⟨by rw [hstep], ?_, ?_⟩
  · rw [hstep]
    show (submitVehicleEvent p voc fl2 w2 device_id provider_id b).1 = _
    rw [hsecond]
  · rw [hstep]
    show (submitVehicleEvent p voc fl2 w2 device_id provider_id b).2 = w2
    rw [hsecond]

/-- A store with one registered micromobility device and nothing else. -/
def world0 : World :=
  { devices := [⟨"aaaaaaaa-aaaa-aaaa-aaaa-aaaaaaaaaaaa",
      "bbbbbbbb-bbbb-bbbb-bbbb-bbbbbbbbbbbb", .micromobility⟩]
    events := []
    telemetryKeys := [] }

/-- A well-formed event submission body for the registered device. -/
def body0 : ReqBody :=
  { event_types := .arr ["battery_low"]
    vehicle_state := some "available"
    trip_state := none
    telemetry := none
    timestamp := .num (.fin 1600000000000)
    trip_id := .null }

/-- C4 (counterexample): resubmitting the same event is rejected with
status 400, but the body's error field reads `bad_param` (with the
duplicate description), not `duplicate` as the claim states. -/
theorem submitVehicleEvent_duplicate_error_field_is_bad_param :
    (submitVehicleEvent prims0 vocab0 ⟨true⟩ world0
      "aaaaaaaa-aaaa-aaaa-aaaa-aaaaaaaaaaaa"
      "bbbbbbbb-bbbb-bbbb-bbbb-bbbbbbbbbbbb" body0).1.status = 201 ∧
    (submitVehicleEvent prims0 vocab0 ⟨true⟩
      (submitVehicleEvent prims0 vocab0 ⟨true⟩ world0
        "aaaaaaaa-aaaa-aaaa-aaaa-aaaaaaaaaaaa"
        "bbbbbbbb-bbbb-bbbb-bbbb-bbbbbbbbbbbb" body0).2
      "aaaaaaaa-aaaa-aaaa-aaaa-aaaaaaaaaaaa"
      "bbbbbbbb-bbbb-bbbb-bbbb-bbbbbbbbbbbb" body0).1 =
      ⟨400, .failure ⟨"bad_param",
        "An event with this device_id and timestamp has already been received"⟩⟩ ∧
    "bad_param" ≠ "duplicate" := by
  exact ⟨rfl, rfl, by decide⟩

/-- C4 (witness for the amended theorem at a concrete input). -/
theorem submitVehicleEvent_duplicate_law_witness :
    (submitVehicleEvent prims0 vocab0 ⟨true⟩ world0
      "aaaaaaaa-aaaa-aaaa-aaaa-aaaaaaaaaaaa"
      "bbbbbbbb-bbbb-bbbb-bbbb-bbbbbbbbbbbb" body0).1 =
      ⟨201, .success "aaaaaaaa-aaaa-aaaa-aaaa-aaaaaaaaaaaa" (some "available")⟩ ∧
    (submitVehicleEvent prims0 vocab0 ⟨true⟩
      (submitVehicleEvent prims0 vocab0 ⟨true⟩ world0
        "aaaaaaaa-aaaa-aaaa-aaaa-aaaaaaaaaaaa"
        "bbbbbbbb-bbbb-bbbb-bbbb-bbbbbbbbbbbb" body0).2
      "aaaaaaaa-aaaa-aaaa-aaaa-aaaaaaaaaaaa"
      "bbbbbbbb-bbbb-bbbb-bbbb-bbbbbbbbbbbb" body0).1 =
      ⟨400, .failure duplicateEventErr⟩ ∧
    (submitVehicleEvent prims0 vocab0 ⟨true⟩
      (submitVehicleEvent prims0 vocab0 ⟨true⟩ world0
        "aaaaaaaa-aaaa-aaaa-aaaa-aaaaaaaaaaaa"
        "bbbbbbbb-bbbb-bbbb-bbbb-bbbbbbbbbbbb" body0).2
      "aaaaaaaa-aaaa-aaaa-aaaa-aaaaaaaaaaaa"
      "bbbbbbbb-bbbb-bbbb-bbbb-bbbbbbbbbbbb" body0).2 =
      (submitVehicleEvent prims0 vocab0 ⟨true⟩ world0
        "aaaaaaaa-aaaa-aaaa-aaaa-aaaaaaaaaaaa"
        "bbbbbbbb-bbbb-bbbb-bbbb-bbbbbbbbbbbb" body0).2 :=
  submitVehicleEvent_duplicate_law prims0 vocab0 ⟨true⟩ ⟨true⟩ world0
    "aaaaaaaa-aaaa-aaaa-aaaa-aaaaaaaaaaaa"
    "bbbbbbbb-bbbb-bbbb-bbbb-bbbbbbbbbbbb" body0
    ⟨"aaaaaaaa-aaaa-aaaa-aaaa-aaaaaaaaaaaa",
      "bbbbbbbb-bbbb-bbbb-bbbb-bbbbbbbbbbbb", .micromobility⟩
    (by rfl) (by rfl) (by rfl)

/-- C5: when the durable write succeeds (device known, validation passes,
key fresh) and the cache/stream fan-out throws (`fanoutOk := false`), the
caller still receives the 201 success response with the correct
`{device_id, state}`: the fan-out failure never reaches the caller. -/
theorem submitVehicleEvent_fanout_failure_still_success (p : Prims) (voc : Vocab)
    (w : World) (device_id provider_id : String) (b : ReqBody) (dev : DeviceRec)
    (hdev : readDevice w device_id provider_id = some dev)
    (hval : eventFailure p voc dev.modality
      (attachTelemetry (buildEvent device_id provider_id b)) = .ok none)
    (hfresh : hasEventKey w device_id b.timestamp = false) :
    (submitVehicleEvent p voc ⟨false⟩ w device_id provider_id b).1 =
      ⟨201, .success device_id b.vehicle_state⟩ := by
  rw [submitVehicleEvent_success_step p voc ⟨false⟩ w device_id provider_id b dev
    hdev hval hfresh]

/-- C5 (witness for the theorem at a concrete input). -/
theorem submitVehicleEvent_fanout_failure_still_success_witness :
    (submitVehicleEvent prims0 vocab0 ⟨false⟩ world0
      "aaaaaaaa-aaaa-aaaa-aaaa-aaaaaaaaaaaa"
      "bbbbbbbb-bbbb-bbbb-bbbb-bbbbbbbbbbbb" body0).1 =
      ⟨201, .success "aaaaaaaa-aaaa-aaaa-aaaa-aaaaaaaaaaaa" (some "available")⟩ :=
  submitVehicleEvent_fanout_failure_still_success prims0 vocab0 world0
    "aaaaaaaa-aaaa-aaaa-aaaa-aaaaaaaaaaaa"
    "bbbbbbbb-bbbb-bbbb-bbbb-bbbbbbbbbbbb" body0
    ⟨"aaaaaaaa-aaaa-aaaa-aaaa-aaaaaaaaaaaa",
      "bbbbbbbb-bbbb-bbbb-bbbb-bbbbbbbbbbbb", .micromobility⟩
    (by rfl) (by rfl) (by rfl)

/-- A submission body with an uppercased event type. -/
def bodyUpper : ReqBody :=
  { event_types := .arr ["TRIP_START"]
    vehicle_state := some "on_trip"
    trip_state := none
    telemetry := none
    timestamp := .num (.fin 1600000000000)
    trip_id := .null }

/-- C10: the event constructed by `submitVehicleEvent` carries the
elementwise-lowercased `event_types` (when an array was submitted), so
vocabulary matching is case-insensitive at the API surface (e.g.
`lower "TRIP_START" = "trip_start"`), while `vehicle_state` is passed
through unchanged, with no case normalization. -/
theorem submitVehicleEvent_lowercases_event_types (device_id provider_id : String)
    (b : ReqBody) (ts : List String) (h : b.event_types = .arr ts) :
    (buildEvent device_id provider_id b).event_types = .arr (ts.map lower) ∧
    (buildEvent device_id provider_id b).vehicle_state = b.vehicle_state ∧
    lower "TRIP_START" = "trip_start" := by
  refine ⟨?_, rfl, by decide⟩
  simp [buildEvent, h]

/-- C10 (witness for the theorem at a concrete input). -/
theorem submitVehicleEvent_lowercases_event_types_witness :
    (buildEvent "d" "p" bodyUpper).event_types = .arr ["trip_start"] :=
  (submitVehicleEvent_lowercases_event_types "d" "p" bodyUpper ["TRIP_START"] rfl).1
